import Mathlib

/-!
# Verification of `examples/alloopback.c` (OpenAL loopback example)

Shallow embedding of the loopback example program:

* the SDL→OpenAL format negotiation performed inline in `main`
  (lines 139–168 of the source) becomes `negotiateAttrs`;
* `CreateSineWave`'s control flow (buffer generation / error cleanup)
  becomes `createSineWave`, driven by an oracle `SineEnv` for the
  results of the external AL calls;
* `main`'s whole control flow becomes `mainRun`, driven by an oracle
  `Env` for every external-API result, producing an `Outcome`: the exit
  code together with the trace of external calls (events), a hang (the
  poll loop never observes a terminal state), or an abort (the
  source-setup `assert` fails);
* the sample synthesis loop of `CreateSineWave` is modelled over ℝ
  (the C `double` computation idealised as exact real arithmetic):
  `sineSample` is the real value computed for index `i`, and `sineData`
  applies the C cast-to-`ALshort` truncation toward zero.

Numeric constants (`ALC_*`, `AUDIO_*`) are the values from the AL and
SDL headers the source includes.
-/

namespace Alloopback

/-! ## Header constants -/

def AL_NO_ERROR : Nat := 0
def AL_PLAYING : Nat := 0x1012

def ALC_FREQUENCY : Int := 0x1007
def ALC_FORMAT_CHANNELS_SOFT : Int := 0x1990
def ALC_FORMAT_TYPE_SOFT : Int := 0x1991
def ALC_MONO_SOFT : Int := 0x1500
def ALC_STEREO_SOFT : Int := 0x1501
def ALC_BYTE_SOFT : Int := 0x1400
def ALC_UNSIGNED_BYTE_SOFT : Int := 0x1401
def ALC_SHORT_SOFT : Int := 0x1402
def ALC_UNSIGNED_SHORT_SOFT : Int := 0x1403

def AUDIO_U8 : Nat := 0x0008
def AUDIO_S8 : Nat := 0x8008
def AUDIO_U16SYS : Nat := 0x0010
def AUDIO_S16SYS : Nat := 0x8010

/-! ## Format negotiation (`main`, lines 139–168)

The source fills `attrs[0..6]`: the channel-count marker chosen by the
`obtained.channels` chain, the sample-type marker chosen by the
`obtained.format` chain, the frequency copied from `obtained.freq`, and
the terminating `0`.  An unhandled channel count or format jumps to the
`error` label, modelled as `none`. -/

def chanMarker (channels : Nat) : Option Int :=
  if channels = 1 then some ALC_MONO_SOFT
  else if channels = 2 then some ALC_STEREO_SOFT
  else none

def typeMarker (format : Nat) : Option Int :=
  if format = AUDIO_U8 then some ALC_UNSIGNED_BYTE_SOFT
  else if format = AUDIO_S8 then some ALC_BYTE_SOFT
  else if format = AUDIO_U16SYS then some ALC_UNSIGNED_SHORT_SOFT
  else if format = AUDIO_S16SYS then some ALC_SHORT_SOFT
  else none

def negotiateAttrs (channels format : Nat) (freq : Int) : Option (List Int) :=
  match chanMarker channels with
  | none => none
  | some c =>
    match typeMarker format with
    | none => none
    | some t =>
      some [ALC_FORMAT_CHANNELS_SOFT, c, ALC_FORMAT_TYPE_SOFT, t,
            ALC_FREQUENCY, freq, 0]

/-! ## External-call events

One constructor per external API call the program makes, in the order
`main` and `CreateSineWave` issue them.  `sdlInitA` is the `SDL_Init`
call; `alGetSource` the `alGetSourcei(source, AL_SOURCE_STATE, &state)`
query; `sleep10` the fixed 10 ms `Sleep(10)` of the poll loop. -/

inductive Event : Type where
  | sdlInitA
  | sdlOpenAudio
  | sdlPauseAudio (pauseOn : Nat)
  | sdlCloseAudio
  | sdlQuit
  | alcOpenDevice
  | alcCloseDevice
  | alcCreateContext
  | alcMakeCurrent
  | alcDestroyContext
  | alGenBuffers
  | alBufferData
  | alIsBufferQuery
  | alDeleteBuffers
  | alGenSources
  | alSourceSetBuffer
  | alSourcePlay
  | alDeleteSources
  | sleep10
  | alGetSource
  deriving DecidableEq, Repr

/-! ## `CreateSineWave` control flow (lines 66–92)

`SineEnv` is the oracle for the external AL results inside
`CreateSineWave`: the buffer name `alGenBuffers` writes (the local
`buffer` starts at 0, so a failed generation that leaves it untouched
is `genName = 0`), the `alGetError()` value observed after
`alGenBuffers`/`alBufferData`, and the `alIsBuffer(buffer)` answer used
on the cleanup path.  The result is the returned buffer name and the
trace of AL calls. -/

structure SineEnv where
  genName : Nat
  err : Nat
  isBuf : Bool

def createSineWave (e : SineEnv) : Nat × List Event :=
  if e.err ≠ AL_NO_ERROR then
    (0, [Event.alGenBuffers, Event.alBufferData] ++
        (if e.isBuf then [Event.alIsBufferQuery, Event.alDeleteBuffers]
         else [Event.alIsBufferQuery]))
  else
    (e.genName, [Event.alGenBuffers, Event.alBufferData])

/-! ## Poll loop (lines 215–218)

`PollObs` is one observation of the do/while body: the `alGetError()`
value and the `AL_SOURCE_STATE` value read by that iteration.  The loop
runs at least once and keeps iterating exactly while the error is
`AL_NO_ERROR` and the state is `AL_PLAYING`.  `pollLoop` returns the
trace of the loop (each iteration sleeps 10 ms then queries the
source), or `none` when the finite observation list never leaves the
playing state — the loop would not terminate within it. -/

structure PollObs where
  err : Nat
  state : Nat

def pollLoop : List PollObs → Option (List Event)
  | [] => none
  | o :: rest =>
    if o.err = AL_NO_ERROR ∧ o.state = AL_PLAYING then
      (pollLoop rest).map (fun evs => Event.sleep10 :: Event.alGetSource :: evs)
    else
      some [Event.sleep10, Event.alGetSource]

/-! ## `RenderSDLSamples` (lines 57–61)

The SDL fill-buffer callback.  The opaque `userdata` pointer is the
`PlaybackInfo` the program registered; the callback calls
`alcRenderSamplesSOFT(playback->Device, stream, len/playback->FrameSize)`.
The result models that call's arguments: the device handle passed and
the frame count passed (C `int` division truncates toward zero, which
is `Int.tdiv`). -/

structure PlaybackInfo where
  Device : Option Nat
  Context : Option Nat
  FrameSize : Int

def RenderSDLSamples (userdata : PlaybackInfo) (len : Int) : Option Nat × Int :=
  (userdata.Device, Int.tdiv len userdata.FrameSize)

/-! ## `main` (lines 95–244)

`Env` is the oracle for every external-API result `main` observes, in
program order.  `Outcome` is either a process exit with its code and
full event trace, an abort (the `assert` on source setup fails, which
terminates without cleanup), or a hang (the poll loop never observes a
non-playing state within the observation list). -/

structure Env where
  extPresent : Bool
  sdlInitOk : Bool
  sdlOpenOk : Bool
  channels : Nat
  format : Nat
  freq : Int
  device : Option Nat
  formatSupported : Bool
  context : Option Nat
  makeCurrentOk : Bool
  sine : SineEnv
  sourceSetupOk : Bool
  polls : List PollObs

inductive Outcome : Type where
  | exit (code : Int) (tr : List Event)
  | abort (tr : List Event)
  | hang (tr : List Event)
  deriving DecidableEq, Repr

/-- The `goto error` unwind block (lines 235–243): close the SDL audio
stream, destroy the context only when one was created, close the device
only when one was opened, quit SDL. -/
def errorUnwind (hasCtx hasDev : Bool) : List Event :=
  [Event.sdlCloseAudio] ++
  (if hasCtx then [Event.alcDestroyContext] else []) ++
  (if hasDev then [Event.alcCloseDevice] else []) ++
  [Event.sdlQuit]

def mainRun (env : Env) : Outcome :=
  if env.extPresent = false then .exit 1 [] else
  if env.sdlInitOk = false then .exit 1 [Event.sdlInitA] else
  if env.sdlOpenOk = false then
    .exit 1 [Event.sdlInitA, Event.sdlOpenAudio, Event.sdlQuit]
  else
    match negotiateAttrs env.channels env.format env.freq with
    | none =>
      .exit 1 ([Event.sdlInitA, Event.sdlOpenAudio] ++ errorUnwind false false)
    | some _attrs =>
      match env.device with
      | none =>
        .exit 1 ([Event.sdlInitA, Event.sdlOpenAudio, Event.alcOpenDevice] ++
                 errorUnwind false false)
      | some _dev =>
        if env.formatSupported = false then
          .exit 1 ([Event.sdlInitA, Event.sdlOpenAudio, Event.alcOpenDevice] ++
                   errorUnwind false true)
        else
          match env.context with
          | none =>
            .exit 1 ([Event.sdlInitA, Event.sdlOpenAudio, Event.alcOpenDevice,
                      Event.alcCreateContext] ++ errorUnwind false true)
          | some _ctx =>
            if env.makeCurrentOk = false then
              .exit 1 ([Event.sdlInitA, Event.sdlOpenAudio, Event.alcOpenDevice,
                        Event.alcCreateContext, Event.alcMakeCurrent] ++
                       errorUnwind true true)
            else
              let pre : List Event :=
                [Event.sdlInitA, Event.sdlOpenAudio, Event.alcOpenDevice,
                 Event.alcCreateContext, Event.alcMakeCurrent,
                 Event.sdlPauseAudio 0]
              let sw := createSineWave env.sine
              if sw.1 = 0 then
                .exit 1 (pre ++ sw.2 ++
                  [Event.sdlCloseAudio, Event.alcDestroyContext,
                   Event.alcCloseDevice, Event.sdlQuit])
              else
                let pre2 := pre ++ sw.2 ++
                  [Event.alGenSources, Event.alSourceSetBuffer]
                if env.sourceSetupOk = false then .abort pre2
                else
                  match pollLoop env.polls with
                  | none => .hang (pre2 ++ [Event.alSourcePlay])
                  | some pollEvs =>
                    .exit 0 (pre2 ++ [Event.alSourcePlay] ++ pollEvs ++
                      [Event.alDeleteSources, Event.alDeleteBuffers,
                       Event.sdlPauseAudio 1, Event.sdlCloseAudio,
                       Event.alcDestroyContext, Event.alcCloseDevice,
                       Event.sdlQuit])

/-! ## Sample synthesis (lines 73–74)

`data[i] = (ALshort)(sin(i * 441.0 / 44100.0 * 2.0*M_PI)*32767.0)`,
idealised over ℝ.  The C cast from `double` to `ALshort` truncates
toward zero (C17 6.3.1.4), modelled by `truncTZ`. -/

noncomputable def sineSample (i : ℕ) : ℝ :=
  Real.sin (i * 441 / 44100 * (2 * Real.pi)) * 32767

/-- Truncation toward zero, the C floating-to-integer conversion. -/
noncomputable def truncTZ (x : ℝ) : ℤ :=
  if 0 ≤ x then ⌊x⌋ else ⌈x⌉

noncomputable def sineData (i : ℕ) : ℤ :=
  truncTZ (sineSample i)

/-- The 44100-entry sample array filled by the loop at lines 73–74. -/
noncomputable def sineWaveData : List ℤ :=
  (List.range 44100).map sineData

/-! ## Trace ordering -/

/-- Index of the first occurrence of `e` in a trace (the trace's length
when `e` does not occur). -/
def firstIdx (e : Event) : List Event → Nat
  | [] => 0
  | x :: xs => if x = e then 0 else firstIdx e xs + 1

/-- Holds when `a` occurs in the trace and its first occurrence is
before the first occurrence of `b`. -/
def Precedes (a b : Event) (tr : List Event) : Prop :=
  a ∈ tr ∧ firstIdx a tr < firstIdx b tr

instance (a b : Event) (tr : List Event) : Decidable (Precedes a b tr) :=
  inferInstanceAs (Decidable (a ∈ tr ∧ firstIdx a tr < firstIdx b tr))

/-- A concrete all-success environment: stereo signed-16-bit 44100 Hz
obtained from SDL, every external call succeeds, and the second poll
observes a non-playing state. -/
def envAllOk : Env :=
  { extPresent := true, sdlInitOk := true, sdlOpenOk := true
    channels := 2, format := AUDIO_S16SYS, freq := 44100
    device := some 1, formatSupported := true, context := some 1
    makeCurrentOk := true, sine := { genName := 1, err := AL_NO_ERROR, isBuf := false }
    sourceSetupOk := true
    polls := [{ err := AL_NO_ERROR, state := AL_PLAYING },
              { err := AL_NO_ERROR, state := 0 }] }

/-- The event trace of the all-success run `mainRun envAllOk`. -/
def traceAllOk : List Event :=
  [Event.sdlInitA, Event.sdlOpenAudio, Event.alcOpenDevice,
   Event.alcCreateContext, Event.alcMakeCurrent, Event.sdlPauseAudio 0,
   Event.alGenBuffers, Event.alBufferData,
   Event.alGenSources, Event.alSourceSetBuffer, Event.alSourcePlay,
   Event.sleep10, Event.alGetSource, Event.sleep10, Event.alGetSource,
   Event.alDeleteSources, Event.alDeleteBuffers, Event.sdlPauseAudio 1,
   Event.sdlCloseAudio, Event.alcDestroyContext, Event.alcCloseDevice,
   Event.sdlQuit]

/-- Variant of `envAllOk` with an SDL channel count the negotiator
does not handle. -/
def envBadChan : Env :=
  { envAllOk with channels := 3 }

/-- A `CreateSineWave` oracle where buffering reports `AL_INVALID_VALUE`
(0xA003) and the partially created buffer exists. -/
def sineEnvErr : SineEnv :=
  { genName := 1, err := 0xA003, isBuf := true }

/-- Events of a run that got as far as a current context: SDL init and
open, device open, context creation, make-current, unpause. -/
def preEvents : List Event :=
  [Event.sdlInitA, Event.sdlOpenAudio, Event.alcOpenDevice,
   Event.alcCreateContext, Event.alcMakeCurrent, Event.sdlPauseAudio 0]

/-- The unwind performed when buffer creation fails (lines 200–204). -/
def unwindEvents : List Event :=
  [Event.sdlCloseAudio, Event.alcDestroyContext, Event.alcCloseDevice,
   Event.sdlQuit]

/-- Events before the poll loop on the successful path. -/
def exitZeroPrefix : List Event :=
  preEvents ++ [Event.alGenBuffers, Event.alBufferData,
    Event.alGenSources, Event.alSourceSetBuffer, Event.alSourcePlay]

/-- Teardown events after the poll loop on the successful path
(lines 220–233). -/
def exitZeroSuffix : List Event :=
  [Event.alDeleteSources, Event.alDeleteBuffers, Event.sdlPauseAudio 1,
   Event.sdlCloseAudio, Event.alcDestroyContext, Event.alcCloseDevice,
   Event.sdlQuit]

/-! ### Trace-order helper lemmas -/

theorem firstIdx_append_of_not_mem {e : Event} {l1 l2 : List Event}
    (h : e ∉ l1) : firstIdx e (l1 ++ l2) = l1.length + firstIdx e l2 := by
  induction l1 with
  | nil => simp [firstIdx]
  | cons x xs ih =>
    have hx : ¬(x = e) := fun hxe => h (hxe ▸ List.mem_cons_self x xs)
    have hxs : e ∉ xs := fun hm => h (List.mem_cons_of_mem x hm)
    rw [List.cons_append, firstIdx, if_neg hx, ih hxs, List.length_cons]
    omega

theorem firstIdx_append_of_mem {e : Event} {l1 l2 : List Event}
    (h : e ∈ l1) : firstIdx e (l1 ++ l2) = firstIdx e l1 := by
  induction l1 with
  | nil => cases h
  | cons x xs ih =>
    by_cases hx : x = e
    · rw [List.cons_append, firstIdx, if_pos hx, firstIdx, if_pos hx]
    · have hxs : e ∈ xs := by
        rcases List.mem_cons.mp h with h' | h'
        · exact absurd h'.symm hx
        · exact h'
      rw [List.cons_append, firstIdx, if_neg hx, firstIdx, if_neg hx, ih hxs]

theorem firstIdx_lt_length_of_mem {e : Event} {l : List Event}
    (h : e ∈ l) : firstIdx e l < l.length := by
  induction l with
  | nil => cases h
  | cons x xs ih =>
    by_cases hx : x = e
    · rw [firstIdx, if_pos hx]
      simp
    · have hxs : e ∈ xs := by
        rcases List.mem_cons.mp h with h' | h'
        · exact absurd h'.symm hx
        · exact h'
      rw [firstIdx, if_neg hx, List.length_cons]
      exact Nat.succ_lt_succ (ih hxs)

theorem precedes_append_both {a b : Event} {l1 l2 : List Event}
    (ha : a ∉ l1) (hb : b ∉ l1) (h : Precedes a b l2) :
    Precedes a b (l1 ++ l2) := by
  refine ⟨List.mem_append_right l1 h.1, ?_⟩
  rw [firstIdx_append_of_not_mem ha, firstIdx_append_of_not_mem hb]
  exact Nat.add_lt_add_left h.2 l1.length

theorem precedes_of_mem_left {a b : Event} {l1 l2 : List Event}
    (ha : a ∈ l1) (hb : b ∉ l1) : Precedes a b (l1 ++ l2) := by
  refine ⟨List.mem_append_left l2 ha, ?_⟩
  rw [firstIdx_append_of_mem ha, firstIdx_append_of_not_mem hb]
  exact lt_of_lt_of_le (firstIdx_lt_length_of_mem ha) (Nat.le_add_right _ _)

/-! ### Poll-loop helper lemmas -/

theorem pollLoop_mem {obs : List PollObs} {evs : List Event}
    (h : pollLoop obs = some evs) :
    ∀ e ∈ evs, e = Event.sleep10 ∨ e = Event.alGetSource := by
  induction obs generalizing evs with
  | nil => cases h
  | cons o rest ih =>
    rw [pollLoop] at h
    split at h
    · cases hrest : pollLoop rest with
      | none => rw [hrest] at h; cases h
      | some evs' =>
        rw [hrest] at h
        injection h with h'
        subst h'
        intro e he
        rcases List.mem_cons.mp he with rfl | he'
        · exact Or.inl rfl
        · rcases List.mem_cons.mp he' with rfl | he''
          · exact Or.inr rfl
          · exact ih hrest e he''
    · injection h with h'
      subst h'
      intro e he
      rcases List.mem_cons.mp he with rfl | he'
      · exact Or.inl rfl
      · rcases List.mem_cons.mp he' with rfl | he''
        · exact Or.inr rfl
        · cases he''

theorem not_mem_pollEvents {obs : List PollObs} {evs : List Event}
    (h : pollLoop obs = some evs) {e : Event}
    (h1 : e ≠ Event.sleep10) (h2 : e ≠ Event.alGetSource) : e ∉ evs :=
  fun hm => by rcases pollLoop_mem h e hm with h' | h' <;> [exact h1 h'; exact h2 h']

/-- A nonzero return from `CreateSineWave` means the error check passed,
so the trace is just the generate-and-fill pair. -/
theorem createSineWave_success_shape {e : SineEnv}
    (h : (createSineWave e).1 ≠ 0) :
    (createSineWave e).2 = [Event.alGenBuffers, Event.alBufferData] := by
  by_cases herr : e.err = AL_NO_ERROR
  · simp [createSineWave, herr]
  · exact absurd (by simp [createSineWave, herr]) h

/-! ### Shapes of the exit traces of `mainRun`

Every run of `mainRun` that exits does so on one of ten paths; this
enumerates the exit code, the relevant oracle facts, and the trace of
each. -/

theorem mainRun_exit_characterization (env : Env) (c : Int) (tr : List Event)
    (h : mainRun env = Outcome.exit c tr) :
    (c = 1 ∧ tr = []) ∨
    (c = 1 ∧ tr = [Event.sdlInitA]) ∨
    (c = 1 ∧ env.sdlOpenOk = false ∧
      tr = [Event.sdlInitA, Event.sdlOpenAudio, Event.sdlQuit]) ∨
    (c = 1 ∧ tr = [Event.sdlInitA, Event.sdlOpenAudio, Event.sdlCloseAudio,
      Event.sdlQuit]) ∨
    (c = 1 ∧ env.device = none ∧
      tr = [Event.sdlInitA, Event.sdlOpenAudio, Event.alcOpenDevice,
        Event.sdlCloseAudio, Event.sdlQuit]) ∨
    (c = 1 ∧ tr = [Event.sdlInitA, Event.sdlOpenAudio, Event.alcOpenDevice,
      Event.sdlCloseAudio, Event.alcCloseDevice, Event.sdlQuit]) ∨
    (c = 1 ∧ env.context = none ∧
      tr = [Event.sdlInitA, Event.sdlOpenAudio, Event.alcOpenDevice,
        Event.alcCreateContext, Event.sdlCloseAudio, Event.alcCloseDevice,
        Event.sdlQuit]) ∨
    (c = 1 ∧ env.context.isSome = true ∧
      tr = [Event.sdlInitA, Event.sdlOpenAudio, Event.alcOpenDevice,
        Event.alcCreateContext, Event.alcMakeCurrent, Event.sdlCloseAudio,
        Event.alcDestroyContext, Event.alcCloseDevice, Event.sdlQuit]) ∨
    (c = 1 ∧ env.context.isSome = true ∧ (createSineWave env.sine).1 = 0 ∧
      (tr = preEvents ++ [Event.alGenBuffers, Event.alBufferData,
         Event.alIsBufferQuery, Event.alDeleteBuffers] ++ unwindEvents ∨
       tr = preEvents ++ [Event.alGenBuffers, Event.alBufferData,
         Event.alIsBufferQuery] ++ unwindEvents ∨
       tr = preEvents ++ [Event.alGenBuffers, Event.alBufferData] ++
         unwindEvents)) ∨
    (c = 0 ∧ env.extPresent = true ∧ env.sdlInitOk = true ∧
      env.sdlOpenOk = true ∧
      (negotiateAttrs env.channels env.format env.freq).isSome = true ∧
      env.device.isSome = true ∧ env.formatSupported = true ∧
      env.context.isSome = true ∧ env.makeCurrentOk = true ∧
      (createSineWave env.sine).1 ≠ 0 ∧
      ∃ pollEvs, pollLoop env.polls = some pollEvs ∧
        tr = exitZeroPrefix ++ pollEvs ++ exitZeroSuffix) := by
  obtain ⟨ext, init, opn, ch, fmt, fr, dev, fsupp, ctx, mkc, sine, ss, polls⟩ :=
    env
  cases ext with
  | false =>
    simp only [mainRun, if_pos rfl] at h
    injection h with h1 h2
    exact Or.inl ⟨h1.symm, h2.symm⟩
  | true =>
  simp only [mainRun, if_neg (by decide : ¬(true = false))] at h
  cases init with
  | false =>
    rw [if_pos rfl] at h
    injection h with h1 h2
    exact Or.inr (Or.inl ⟨h1.symm, h2.symm⟩)
  | true =>
  rw [if_neg (by decide : ¬(true = false))] at h
  cases opn with
  | false =>
    rw [if_pos rfl] at h
    injection h with h1 h2
    exact Or.inr (Or.inr (Or.inl ⟨h1.symm, rfl, h2.symm⟩))
  | true =>
  rw [if_neg (by decide : ¬(true = false))] at h
  cases hns : negotiateAttrs ch fmt fr with
  | none =>
    simp only [hns, errorUnwind, if_neg] at h
    injection h with h1 h2
    exact Or.inr (Or.inr (Or.inr (Or.inl ⟨h1.symm, by
      rw [← h2]; decide⟩)))
  | some attrs =>
  simp only [hns] at h
  cases dev with
  | none =>
    simp only [errorUnwind] at h
    injection h with h1 h2
    exact Or.inr (Or.inr (Or.inr (Or.inr (Or.inl ⟨h1.symm, rfl, by
      rw [← h2]; decide⟩))))
  | some d =>
  simp only [] at h
  cases fsupp with
  | false =>
    rw [if_pos rfl] at h
    simp only [errorUnwind] at h
    injection h with h1 h2
    exact Or.inr (Or.inr (Or.inr (Or.inr (Or.inr (Or.inl ⟨h1.symm, by
      rw [← h2]; decide⟩)))))
  | true =>
  rw [if_neg (by decide : ¬(true = false))] at h
  cases ctx with
  | none =>
    simp only [errorUnwind] at h
    injection h with h1 h2
    exact Or.inr (Or.inr (Or.inr (Or.inr (Or.inr (Or.inr (Or.inl
      ⟨h1.symm, rfl, by rw [← h2]; decide⟩))))))
  | some cx =>
  simp only [] at h
  cases mkc with
  | false =>
    rw [if_pos rfl] at h
    simp only [errorUnwind] at h
    injection h with h1 h2
    exact Or.inr (Or.inr (Or.inr (Or.inr (Or.inr (Or.inr (Or.inr (Or.inl
      ⟨h1.symm, rfl, by rw [← h2]; decide⟩)))))))
  | true =>
  rw [if_neg (by decide : ¬(true = false))] at h
  by_cases hsw : (createSineWave sine).1 = 0
  · rw [if_pos hsw] at h
    injection h with h1 h2
    refine Or.inr (Or.inr (Or.inr (Or.inr (Or.inr (Or.inr (Or.inr (Or.inr
      (Or.inl ⟨h1.symm, rfl, hsw, ?_⟩))))))))
    obtain ⟨g, er, ib⟩ := sine
    by_cases herr : er = AL_NO_ERROR
    · refine Or.inr (Or.inr ?_)
      rw [← h2]
      simp [createSineWave, herr, preEvents, unwindEvents]
    · cases ib
      · refine Or.inr (Or.inl ?_)
        rw [← h2]
        simp [createSineWave, herr, preEvents, unwindEvents]
      · refine Or.inl ?_
        rw [← h2]
        simp [createSineWave, herr, preEvents, unwindEvents]
  · rw [if_neg hsw] at h
    cases ss with
    | false =>
      rw [if_pos rfl] at h
      cases h
    | true =>
    rw [if_neg (by decide : ¬(true = false))] at h
    cases hpl : pollLoop polls with
    | none =>
      simp only [hpl] at h
      cases h
    | some pollEvs =>
    simp only [hpl] at h
    injection h with h1 h2
    refine Or.inr (Or.inr (Or.inr (Or.inr (Or.inr (Or.inr (Or.inr (Or.inr
      (Or.inr ⟨h1.symm, rfl, rfl, rfl, rfl, rfl, rfl, rfl, rfl,
        hsw, pollEvs, rfl, ?_⟩))))))))
    rw [← h2]
    have hshape := createSineWave_success_shape hsw
    rw [hshape]
    simp [exitZeroPrefix, exitZeroSuffix, preEvents]

/-! ### Elementary facts about `truncTZ` -/

theorem truncTZ_le_of_le {x : ℝ} {n : ℤ} (h : x ≤ n) : truncTZ x ≤ n := by
  unfold truncTZ
  split
  · exact le_trans (Int.floor_le_floor h) (by simp)
  · exact Int.ceil_le.mpr h

theorem le_truncTZ_of_le {x : ℝ} {n : ℤ} (h : (n : ℝ) ≤ x) : n ≤ truncTZ x := by
  unfold truncTZ
  split
  · exact Int.le_floor.mpr h
  · exact le_trans (by simp) (Int.ceil_le_ceil h)

theorem floor_le_truncTZ (x : ℝ) : ⌊x⌋ ≤ truncTZ x := by
  unfold truncTZ
  split
  · exact le_refl _
  · exact Int.floor_le_ceil x

theorem truncTZ_le_floor_add_one (x : ℝ) : truncTZ x ≤ ⌊x⌋ + 1 := by
  unfold truncTZ
  split
  · omega
  · exact Int.ceil_le_floor_add_one x

/-- Truncation toward zero differs from rounding to nearest by at most
one: both lie in `{⌊x⌋, ⌊x⌋ + 1}`. -/
theorem abs_truncTZ_sub_round_le_one (x : ℝ) : |truncTZ x - round x| ≤ 1 := by
  have h1 : ⌊x⌋ ≤ truncTZ x := floor_le_truncTZ x
  have h2 : truncTZ x ≤ ⌊x⌋ + 1 := truncTZ_le_floor_add_one x
  have h3 : ⌊x⌋ ≤ round x := by
    rw [round_eq]
    exact Int.floor_le_floor (by linarith)
  have h4 : round x ≤ ⌊x⌋ + 1 := by
    rw [round_eq]
    have : ⌊x + 1 / 2⌋ ≤ ⌊x + 1⌋ := Int.floor_le_floor (by linarith)
    simpa [Int.floor_add_one] using this
  rw [abs_le]
  omega

/-! ### Sample values at the special indices -/

theorem sineSample_bound (i : ℕ) :
    -32767 ≤ sineSample i ∧ sineSample i ≤ 32767 := by
  have h1 := Real.neg_one_le_sin ((i : ℝ) * 441 / 44100 * (2 * Real.pi))
  have h2 := Real.sin_le_one ((i : ℝ) * 441 / 44100 * (2 * Real.pi))
  unfold sineSample
  constructor <;> nlinarith

theorem sineSample_zero_eq : sineSample 0 = 0 := by
  simp [sineSample]

theorem sineData_zero_eq : sineData 0 = 0 := by
  rw [sineData, sineSample_zero_eq]
  simp [truncTZ]

theorem sineSample_11025_eq : sineSample 11025 = 32767 := by
  have hang : ((11025 : ℕ) : ℝ) * 441 / 44100 * (2 * Real.pi) =
      Real.pi / 2 + (110 : ℕ) * (2 * Real.pi) := by
    push_cast
    ring
  rw [sineSample, hang, Real.sin_add_nat_mul_two_pi, Real.sin_pi_div_two,
    one_mul]

theorem sineData_11025_eq : sineData 11025 = 32767 := by
  rw [sineData, sineSample_11025_eq]
  simp only [truncTZ]
  norm_num

theorem sineSample_33075_eq : sineSample 33075 = -32767 := by
  have hang : ((33075 : ℕ) : ℝ) * 441 / 44100 * (2 * Real.pi) =
      -(Real.pi / 2) + (331 : ℕ) * (2 * Real.pi) := by
    push_cast
    ring
  rw [sineSample, hang, Real.sin_add_nat_mul_two_pi, Real.sin_neg,
    Real.sin_pi_div_two]
  ring

theorem sineData_33075_eq : sineData 33075 = -32767 := by
  rw [sineData, sineSample_33075_eq]
  simp only [truncTZ]
  rw [if_neg (by norm_num), show ((-32767 : ℝ)) = ((-32767 : ℤ) : ℝ) by norm_num,
    Int.ceil_intCast]

end Alloopback

namespace Alloopback

/-- C2: for each of the 8 supported (channel count, encoding)
combinations the negotiator succeeds, maps channel count 1 to the mono
marker and 2 to the stereo marker, maps each of the four encodings 1:1
to its internal type marker, passes the sample rate through unchanged,
and terminates the attribute list with a zero sentinel. -/
theorem negotiate_supported_pairs (freq : Int) :
    (negotiateAttrs 1 AUDIO_U8 freq =
      some [ALC_FORMAT_CHANNELS_SOFT, ALC_MONO_SOFT,
            ALC_FORMAT_TYPE_SOFT, ALC_UNSIGNED_BYTE_SOFT,
            ALC_FREQUENCY, freq, 0]) ∧
    (negotiateAttrs 1 AUDIO_S8 freq =
      some [ALC_FORMAT_CHANNELS_SOFT, ALC_MONO_SOFT,
            ALC_FORMAT_TYPE_SOFT, ALC_BYTE_SOFT,
            ALC_FREQUENCY, freq, 0]) ∧
    (negotiateAttrs 1 AUDIO_U16SYS freq =
      some [ALC_FORMAT_CHANNELS_SOFT, ALC_MONO_SOFT,
            ALC_FORMAT_TYPE_SOFT, ALC_UNSIGNED_SHORT_SOFT,
            ALC_FREQUENCY, freq, 0]) ∧
    (negotiateAttrs 1 AUDIO_S16SYS freq =
      some [ALC_FORMAT_CHANNELS_SOFT, ALC_MONO_SOFT,
            ALC_FORMAT_TYPE_SOFT, ALC_SHORT_SOFT,
            ALC_FREQUENCY, freq, 0]) ∧
    (negotiateAttrs 2 AUDIO_U8 freq =
      some [ALC_FORMAT_CHANNELS_SOFT, ALC_STEREO_SOFT,
            ALC_FORMAT_TYPE_SOFT, ALC_UNSIGNED_BYTE_SOFT,
            ALC_FREQUENCY, freq, 0]) ∧
    (negotiateAttrs 2 AUDIO_S8 freq =
      some [ALC_FORMAT_CHANNELS_SOFT, ALC_STEREO_SOFT,
            ALC_FORMAT_TYPE_SOFT, ALC_BYTE_SOFT,
            ALC_FREQUENCY, freq, 0]) ∧
    (negotiateAttrs 2 AUDIO_U16SYS freq =
      some [ALC_FORMAT_CHANNELS_SOFT, ALC_STEREO_SOFT,
            ALC_FORMAT_TYPE_SOFT, ALC_UNSIGNED_SHORT_SOFT,
            ALC_FREQUENCY, freq, 0]) ∧
    (negotiateAttrs 2 AUDIO_S16SYS freq =
      some [ALC_FORMAT_CHANNELS_SOFT, ALC_STEREO_SOFT,
            ALC_FORMAT_TYPE_SOFT, ALC_SHORT_SOFT,
            ALC_FREQUENCY, freq, 0]) :=
  ⟨rfl, rfl, rfl, rfl, rfl, rfl, rfl, rfl⟩

/-- C10: for every index `i < 44100` the value
`sin(i * 441.0 / 44100.0 * 2π) * 32767.0` has magnitude at most 32767,
so the narrowing conversion to the 16-bit sample type cannot overflow:
every stored sample lies in `[-32767, 32767]`. -/
theorem sine_value_in_short_range (i : ℕ) (h : i < 44100) :
    -32767 ≤ sineData i ∧ sineData i ≤ 32767 := by
  obtain ⟨h1, h2⟩ := sineSample_bound i
  refine ⟨le_truncTZ_of_le ?_, truncTZ_le_of_le ?_⟩
  · push_cast
    linarith
  · push_cast
    linarith

/-- Witness for C10 at `i = 0`. -/
theorem sine_value_in_short_range_witness :
    -32767 ≤ sineData 0 ∧ sineData 0 ≤ 32767 :=
  sine_value_in_short_range 0 (by norm_num)

/-- C1 (amended): the synthesizer produces exactly 44100 samples; the
stored sample at index `i` is the truncation toward zero (the C cast)
of `32767 · sin(2π · 441 · i / 44100)`, which is within one unit of the
rounded value the claim states; in particular the first sample is
exactly 0, the sample at `i = 11025` is exactly 32767, and the sample
at `i = 33075` is exactly −32767. -/
theorem sine_wave_samples (i : ℕ) (h : i < 44100) :
    sineWaveData.length = 44100 ∧
    sineWaveData.get? i = some (sineData i) ∧
    sineData i = truncTZ (Real.sin (2 * Real.pi * (441 * i) / 44100) * 32767) ∧
    |sineData i - round (Real.sin (2 * Real.pi * (441 * i) / 44100) * 32767)| ≤ 1 ∧
    sineData 0 = 0 ∧ sineData 11025 = 32767 ∧ sineData 33075 = -32767 := by
  have hang : 2 * Real.pi * (441 * (i : ℝ)) / 44100 =
      (i : ℝ) * 441 / 44100 * (2 * Real.pi) := by
    ring
  have hform : Real.sin (2 * Real.pi * (441 * (i : ℝ)) / 44100) * 32767 =
      sineSample i := by
    rw [sineSample, hang]
  refine ⟨by simp [sineWaveData], ?_, ?_, ?_, sineData_zero_eq,
    sineData_11025_eq, sineData_33075_eq⟩
  · simp [sineWaveData, List.get?_map, List.get?_range, h]
  · rw [hform, sineData]
  · rw [hform]
    exact abs_truncTZ_sub_round_le_one _

/-- Witness for C1 (amended) at `i = 0`. -/
theorem sine_wave_samples_witness :
    sineWaveData.length = 44100 ∧ sineWaveData.get? 0 = some (sineData 0) :=
  ⟨(sine_wave_samples 0 (by norm_num)).1, (sine_wave_samples 0 (by norm_num)).2.1⟩

set_option maxHeartbeats 1600000 in
/-- C1 counterexample: at index 2 the real value
`32767 · sin(2π · 441 · 2 / 44100) = 32767 · sin(π/25) ≈ 4106.8`, so
the C cast stores the truncation 4106 while the claimed
`round(32767 · sin(2π · 441 · 2 / 44100))` is 4107: the stored sample
is not the rounded value. -/
theorem sine_wave_round_counterexample :
    sineData 2 ≠ round (Real.sin (2 * Real.pi * (441 * 2) / 44100) * 32767) := by
  have hπl : (3.141592 : ℝ) < Real.pi := Real.pi_gt_d6
  have hπu : Real.pi < 3.141593 := Real.pi_lt_d6
  set y : ℝ := Real.pi / 50 with hy
  have hy0 : (0.06283184 : ℝ) < y := by rw [hy]; linarith
  have hy1 : y < 0.06283186 := by rw [hy]; linarith
  have hypos : 0 < y := by linarith
  have hyabs : |y| ≤ 1 := by rw [abs_of_pos hypos]; linarith
  have hs := Real.sin_bound hyabs
  have hc := Real.cos_bound hyabs
  rw [abs_of_pos hypos, abs_le] at hs hc
  obtain ⟨hs1, hs2⟩ := hs
  obtain ⟨hc1, hc2⟩ := hc
  have hy2l : (0.0039478 : ℝ) < y ^ 2 := by
    nlinarith [mul_pos (sub_pos.mpr hy0)
      (show (0 : ℝ) < y + 0.06283184 by linarith)]
  have hy2u : y ^ 2 < 0.0039478427 := by
    nlinarith [mul_pos (sub_pos.mpr hy1)
      (show (0 : ℝ) < 0.06283186 + y by linarith)]
  have hy3l : (0.00024804 : ℝ) < y ^ 3 := by
    nlinarith [mul_pos (sub_pos.mpr hy2l) hypos]
  have hy3u : y ^ 3 < 0.00024806 := by
    nlinarith [mul_pos (sub_pos.mpr hy2u) hypos]
  have hy4u : y ^ 4 < 0.0000155866 := by
    nlinarith [mul_pos (sub_pos.mpr hy2u)
      (show (0 : ℝ) < 0.0039478427 + y ^ 2 by positivity)]
  have hsl : (0.0627896 : ℝ) < Real.sin y := by linarith
  have hsu : Real.sin y < 0.0627914 := by linarith
  have hcl : (0.9980252 : ℝ) < Real.cos y := by linarith
  have hcu : Real.cos y < 0.9980270 := by linarith
  have hsin2 : Real.sin (2 * y) = 2 * Real.sin y * Real.cos y :=
    Real.sin_two_mul y
  have hv1 : (4106.5 : ℝ) ≤ Real.sin (2 * y) * 32767 := by
    rw [hsin2]
    nlinarith [mul_pos (sub_pos.mpr hsl) (sub_pos.mpr hcl)]
  have hv2 : Real.sin (2 * y) * 32767 < 4107 := by
    rw [hsin2]
    nlinarith [mul_pos (sub_pos.mpr hsu) (sub_pos.mpr hcu)]
  have hang : 2 * Real.pi * (441 * 2) / 44100 = 2 * y := by
    rw [hy]; ring
  have hdata : sineData 2 = 4106 := by
    have hang2 : ((2 : ℕ) : ℝ) * 441 / 44100 * (2 * Real.pi) = 2 * y := by
      rw [hy]; push_cast; ring
    rw [sineData, sineSample, hang2, truncTZ, if_pos (by linarith)]
    rw [Int.floor_eq_iff]
    constructor
    · push_cast; linarith
    · push_cast; linarith
  have hround : round (Real.sin (2 * y) * 32767) = 4107 := by
    rw [round_eq]
    rw [Int.floor_eq_iff]
    constructor
    · push_cast; linarith
    · push_cast; linarith
  rw [hang, hdata, hround]
  decide

/-- C4: with the capability probe and SDL setup succeeding, any
unsupported channel count (anything other than 1 or 2) or unsupported
encoding (anything outside the four handled `AUDIO_*` values) makes
negotiation fail: `main` exits with status 1, and the trace contains no
loopback-device open call. -/
theorem negotiation_failure_before_device (env : Env)
    (hext : env.extPresent = true) (hinit : env.sdlInitOk = true)
    (hopen : env.sdlOpenOk = true)
    (hbad : (env.channels ≠ 1 ∧ env.channels ≠ 2) ∨
      (env.format ≠ AUDIO_U8 ∧ env.format ≠ AUDIO_S8 ∧
       env.format ≠ AUDIO_U16SYS ∧ env.format ≠ AUDIO_S16SYS)) :
    mainRun env = Outcome.exit 1
      [Event.sdlInitA, Event.sdlOpenAudio, Event.sdlCloseAudio, Event.sdlQuit] ∧
    Event.alcOpenDevice ∉
      ([Event.sdlInitA, Event.sdlOpenAudio, Event.sdlCloseAudio,
        Event.sdlQuit] : List Event) := by
  have hneg : negotiateAttrs env.channels env.format env.freq = none := by
    rcases hbad with ⟨h1, h2⟩ | ⟨h1, h2, h3, h4⟩
    · unfold negotiateAttrs chanMarker
      rw [if_neg h1, if_neg h2]
    · have ht : typeMarker env.format = none := by
        unfold typeMarker
        rw [if_neg h1, if_neg h2, if_neg h3, if_neg h4]
      unfold negotiateAttrs
      rw [ht]
      cases chanMarker env.channels <;> rfl
  refine ⟨?_, by decide⟩
  simp [mainRun, hext, hinit, hopen, hneg, errorUnwind]

/-- Witness for C4: SDL reports 3 channels. -/
theorem negotiation_failure_before_device_witness :
    mainRun envBadChan = Outcome.exit 1
      [Event.sdlInitA, Event.sdlOpenAudio, Event.sdlCloseAudio, Event.sdlQuit] ∧
    Event.alcOpenDevice ∉
      ([Event.sdlInitA, Event.sdlOpenAudio, Event.sdlCloseAudio,
        Event.sdlQuit] : List Event) :=
  negotiation_failure_before_device envBadChan rfl rfl rfl
    (Or.inl ⟨by decide, by decide⟩)

/-- C7: the fill-buffer callback passes the device handle recovered
from the opaque `userdata` record, and a frame count equal to the byte
length divided by the session's frame size — truncated integer
division, characterised by the two inequalities for nonnegative byte
lengths and positive frame sizes. -/
theorem render_callback_frame_count (pb : PlaybackInfo) (len : Int)
    (hfs : 0 < pb.FrameSize) (hlen : 0 ≤ len) :
    (RenderSDLSamples pb len).1 = pb.Device ∧
    (RenderSDLSamples pb len).2 = Int.tdiv len pb.FrameSize ∧
    (RenderSDLSamples pb len).2 * pb.FrameSize ≤ len ∧
    len < ((RenderSDLSamples pb len).2 + 1) * pb.FrameSize := by
  have hmod1 : 0 ≤ Int.tmod len pb.FrameSize := Int.tmod_nonneg _ hlen
  have hmod2 : Int.tmod len pb.FrameSize < pb.FrameSize :=
    Int.tmod_lt_of_pos len hfs
  have hdiv : pb.FrameSize * Int.tdiv len pb.FrameSize +
      Int.tmod len pb.FrameSize = len := Int.tdiv_add_tmod len pb.FrameSize
  refine ⟨rfl, rfl, ?_, ?_⟩
  · show Int.tdiv len pb.FrameSize * pb.FrameSize ≤ len
    nlinarith
  · show len < (Int.tdiv len pb.FrameSize + 1) * pb.FrameSize
    nlinarith

/-- Witness for C7: a stereo 16-bit session (frame size 4) asked for
4096 bytes renders 1024 frames. -/
theorem render_callback_frame_count_witness :
    (RenderSDLSamples { Device := some 1, Context := some 1, FrameSize := 4 }
      4096).1 = some 1 ∧
    (RenderSDLSamples { Device := some 1, Context := some 1, FrameSize := 4 }
      4096).2 = Int.tdiv 4096 4 ∧
    (RenderSDLSamples { Device := some 1, Context := some 1, FrameSize := 4 }
      4096).2 * 4 ≤ 4096 ∧
    (4096 : Int) < ((RenderSDLSamples
      { Device := some 1, Context := some 1, FrameSize := 4 } 4096).2 + 1) * 4 :=
  render_callback_frame_count
    { Device := some 1, Context := some 1, FrameSize := 4 } 4096
    (by norm_num) (by norm_num)

/-- C8: if the error check in `CreateSineWave` sees any error, the
function returns the null handle 0 and deletes the partially created
buffer exactly when one exists (`alIsBuffer`); on success it returns
the generated name, which is nonzero for a successful generation. -/
theorem create_sine_wave_no_partial_state (e : SineEnv)
    (hgen : e.genName ≠ 0) :
    (e.err ≠ AL_NO_ERROR →
      (createSineWave e).1 = 0 ∧
      (e.isBuf = true → Event.alDeleteBuffers ∈ (createSineWave e).2) ∧
      (e.isBuf = false → Event.alDeleteBuffers ∉ (createSineWave e).2)) ∧
    (e.err = AL_NO_ERROR →
      (createSineWave e).1 = e.genName ∧ (createSineWave e).1 ≠ 0) := by
  obtain ⟨g, er, ib⟩ := e
  simp only [ne_eq] at hgen ⊢
  constructor
  · intro herr
    unfold createSineWave
    rw [if_pos (by simpa using herr)]
    cases ib <;> simp
  · intro herr
    unfold createSineWave
    rw [if_neg (by simp [herr])]
    exact ⟨rfl, hgen⟩

/-- Witness for C8: a failing registration with an existing buffer
object deletes it and returns 0. -/
theorem create_sine_wave_no_partial_state_witness :
    (sineEnvErr.err ≠ AL_NO_ERROR →
      (createSineWave sineEnvErr).1 = 0 ∧
      (sineEnvErr.isBuf = true →
        Event.alDeleteBuffers ∈ (createSineWave sineEnvErr).2) ∧
      (sineEnvErr.isBuf = false →
        Event.alDeleteBuffers ∉ (createSineWave sineEnvErr).2)) ∧
    (sineEnvErr.err = AL_NO_ERROR →
      (createSineWave sineEnvErr).1 = sineEnvErr.genName ∧
      (createSineWave sineEnvErr).1 ≠ 0) :=
  create_sine_wave_no_partial_state sineEnvErr (by decide)

/-- C6: when the first `k` poll observations report no error and a
playing state and the `(k+1)`-st does not, the playback polling loop
runs exactly `k + 1` iterations — each one a fixed 10 ms sleep followed
by one source-state query — terminating at that first observation whose
state is not "playing" or whose error query fails. -/
theorem poll_loop_stops_at_first_terminal (obs : List PollObs) (k : ℕ)
    (hk : k < obs.length)
    (hgood : ∀ o ∈ obs.take k, o.err = AL_NO_ERROR ∧ o.state = AL_PLAYING)
    (hbad : ¬((obs.get ⟨k, hk⟩).err = AL_NO_ERROR ∧
              (obs.get ⟨k, hk⟩).state = AL_PLAYING)) :
    pollLoop obs =
      some (List.join (List.replicate (k + 1)
        [Event.sleep10, Event.alGetSource])) := by
  induction obs generalizing k with
  | nil => exact absurd hk (Nat.not_lt_zero k)
  | cons o rest ih =>
    cases k with
    | zero =>
      rw [pollLoop, if_neg (show ¬(o.err = AL_NO_ERROR ∧ o.state = AL_PLAYING)
        from hbad)]
      rfl
    | succ k' =>
      have hgoodo : o.err = AL_NO_ERROR ∧ o.state = AL_PLAYING :=
        hgood o (by simp [List.take_succ_cons])
      have hk' : k' < rest.length := Nat.lt_of_succ_lt_succ hk
      have hg' : ∀ o' ∈ rest.take k',
          o'.err = AL_NO_ERROR ∧ o'.state = AL_PLAYING :=
        fun o' ho' => hgood o' (by simp [List.take_succ_cons, ho'])
      have hb' : ¬((rest.get ⟨k', hk'⟩).err = AL_NO_ERROR ∧
          (rest.get ⟨k', hk'⟩).state = AL_PLAYING) := hbad
      rw [pollLoop, if_pos hgoodo, ih k' hk' hg' hb']
      rfl

/-- Witness for C6: one playing observation followed by a stopped one
gives exactly two sleep-and-query iterations. -/
theorem poll_loop_stops_at_first_terminal_witness :
    pollLoop [{ err := AL_NO_ERROR, state := AL_PLAYING },
              { err := AL_NO_ERROR, state := 0 }] =
      some (List.join (List.replicate 2 [Event.sleep10, Event.alGetSource])) :=
  poll_loop_stops_at_first_terminal
    [{ err := AL_NO_ERROR, state := AL_PLAYING },
     { err := AL_NO_ERROR, state := 0 }] 1
    (by decide) (by decide) (by decide)

/-- C5: the program takes no input other than the external-API oracle
(no CLI arguments), every exit carries code 0 or 1, and code 0 occurs
only when every setup stage succeeded: extension present, SDL init and
open, format negotiation, device open, render-format support, context
creation and make-current, and buffer creation. -/
theorem main_exit_codes (env : Env) (c : Int) (tr : List Event)
    (h : mainRun env = Outcome.exit c tr) :
    (c = 0 ∨ c = 1) ∧
    (c = 0 → env.extPresent = true ∧ env.sdlInitOk = true ∧
      env.sdlOpenOk = true ∧
      (negotiateAttrs env.channels env.format env.freq).isSome = true ∧
      env.device.isSome = true ∧ env.formatSupported = true ∧
      env.context.isSome = true ∧ env.makeCurrentOk = true ∧
      (createSineWave env.sine).1 ≠ 0) := by
  rcases mainRun_exit_characterization env c tr h with
    ⟨rfl, _⟩ | ⟨rfl, _⟩ | ⟨rfl, _, _⟩ | ⟨rfl, _⟩ | ⟨rfl, _, _⟩ | ⟨rfl, _⟩ |
    ⟨rfl, _, _⟩ | ⟨rfl, _, _⟩ | ⟨rfl, _, _, _⟩ |
    ⟨rfl, hext, hinit, hopn, hns, hdev, hfs, hctx, hmk, hsw, _⟩
  case _ => exact ⟨Or.inr rfl, fun h0 => absurd h0 (by norm_num)⟩
  case _ => exact ⟨Or.inr rfl, fun h0 => absurd h0 (by norm_num)⟩
  case _ => exact ⟨Or.inr rfl, fun h0 => absurd h0 (by norm_num)⟩
  case _ => exact ⟨Or.inr rfl, fun h0 => absurd h0 (by norm_num)⟩
  case _ => exact ⟨Or.inr rfl, fun h0 => absurd h0 (by norm_num)⟩
  case _ => exact ⟨Or.inr rfl, fun h0 => absurd h0 (by norm_num)⟩
  case _ => exact ⟨Or.inr rfl, fun h0 => absurd h0 (by norm_num)⟩
  case _ => exact ⟨Or.inr rfl, fun h0 => absurd h0 (by norm_num)⟩
  case _ => exact ⟨Or.inr rfl, fun h0 => absurd h0 (by norm_num)⟩
  case _ => exact ⟨Or.inl rfl,
    fun _ => ⟨hext, hinit, hopn, hns, hdev, hfs, hctx, hmk, hsw⟩⟩

/-- Witness for C5: the all-success run exits with code 0. -/
theorem main_exit_codes_witness :
    ((0 : Int) = 0 ∨ (0 : Int) = 1) ∧
    ((0 : Int) = 0 → envAllOk.extPresent = true ∧ envAllOk.sdlInitOk = true ∧
      envAllOk.sdlOpenOk = true ∧
      (negotiateAttrs envAllOk.channels envAllOk.format envAllOk.freq).isSome
        = true ∧
      envAllOk.device.isSome = true ∧ envAllOk.formatSupported = true ∧
      envAllOk.context.isSome = true ∧ envAllOk.makeCurrentOk = true ∧
      (createSineWave envAllOk.sine).1 ≠ 0) :=
  main_exit_codes envAllOk 0 traceAllOk (by rfl)

/-- C3 (amended): on every exit path each successfully acquired
resource is released: the SDL audio stream is closed, the device
closed, the context destroyed, and the source and buffer deleted
whenever they were acquired.  The OpenAL resources are released in
reverse-acquisition order (source before buffer, buffer before
context, context before device); the SDL audio stream, although
acquired before the OpenAL device, is deliberately closed *before* the
context/device teardown — not in reverse-acquisition order — so that
the render callback cannot touch a destroyed context.  Teardown of a
session where only the device (not the context) was created closes the
device without ever calling destroy on the null context. -/
theorem teardown_release_discipline (env : Env) (c : Int) (tr : List Event)
    (h : mainRun env = Outcome.exit c tr) :
    (Event.sdlOpenAudio ∈ tr ∧ env.sdlOpenOk = true →
      Event.sdlCloseAudio ∈ tr) ∧
    (Event.alcOpenDevice ∈ tr ∧ env.device.isSome = true →
      Event.alcCloseDevice ∈ tr) ∧
    (Event.alcCreateContext ∈ tr ∧ env.context.isSome = true →
      Event.alcDestroyContext ∈ tr) ∧
    (Event.alGenSources ∈ tr → Event.alDeleteSources ∈ tr) ∧
    ((createSineWave env.sine).1 ≠ 0 ∧ Event.alGenBuffers ∈ tr →
      Event.alDeleteBuffers ∈ tr) ∧
    (Event.alDeleteSources ∈ tr →
      Precedes Event.alDeleteSources Event.alDeleteBuffers tr) ∧
    (Event.alDeleteBuffers ∈ tr →
      Precedes Event.alDeleteBuffers Event.alcDestroyContext tr) ∧
    (Event.alcDestroyContext ∈ tr →
      Precedes Event.alcDestroyContext Event.alcCloseDevice tr) ∧
    (Event.alcDestroyContext ∈ tr →
      Precedes Event.sdlCloseAudio Event.alcDestroyContext tr) ∧
    (Event.sdlCloseAudio ∈ tr →
      Precedes Event.sdlCloseAudio Event.sdlQuit tr) ∧
    (env.context = none → Event.alcDestroyContext ∉ tr) := by
  rcases mainRun_exit_characterization env c tr h with
    ⟨_, rfl⟩ | ⟨_, rfl⟩ | ⟨_, hopn, rfl⟩ | ⟨_, rfl⟩ | ⟨_, hdev, rfl⟩ |
    ⟨_, rfl⟩ | ⟨_, hctx, rfl⟩ | ⟨_, hctx, rfl⟩ |
    ⟨_, hctx, hsw, (rfl | rfl | rfl)⟩ |
    ⟨_, hext, hinit, hopn, hns, hdev, hfs, hctx, hmk, hsw, pollEvs, hpl, rfl⟩
  case _ =>
    refine ⟨?_, ?_, ?_, ?_, ?_, ?_, ?_, ?_, ?_, ?_, ?_⟩ <;> intro hx <;>
      first
        | decide
        | exact absurd hx (by decide)
        | exact absurd hx.1 (by decide)
        | exact absurd hx.2 (by decide)
        | simp_all
  case _ =>
    refine ⟨?_, ?_, ?_, ?_, ?_, ?_, ?_, ?_, ?_, ?_, ?_⟩ <;> intro hx <;>
      first
        | decide
        | exact absurd hx (by decide)
        | exact absurd hx.1 (by decide)
        | exact absurd hx.2 (by decide)
        | simp_all
  case _ =>
    refine ⟨?_, ?_, ?_, ?_, ?_, ?_, ?_, ?_, ?_, ?_, ?_⟩ <;> intro hx <;>
      first
        | decide
        | exact absurd hx (by decide)
        | exact absurd hx.1 (by decide)
        | exact absurd hx.2 (by decide)
        | simp_all
  case _ =>
    refine ⟨?_, ?_, ?_, ?_, ?_, ?_, ?_, ?_, ?_, ?_, ?_⟩ <;> intro hx <;>
      first
        | decide
        | exact absurd hx (by decide)
        | exact absurd hx.1 (by decide)
        | exact absurd hx.2 (by decide)
        | simp_all
  case _ =>
    refine ⟨?_, ?_, ?_, ?_, ?_, ?_, ?_, ?_, ?_, ?_, ?_⟩ <;> intro hx <;>
      first
        | decide
        | exact absurd hx (by decide)
        | exact absurd hx.1 (by decide)
        | exact absurd hx.2 (by decide)
        | simp_all
  case _ =>
    refine ⟨?_, ?_, ?_, ?_, ?_, ?_, ?_, ?_, ?_, ?_, ?_⟩ <;> intro hx <;>
      first
        | decide
        | exact absurd hx (by decide)
        | exact absurd hx.1 (by decide)
        | exact absurd hx.2 (by decide)
        | simp_all
  case _ =>
    refine ⟨?_, ?_, ?_, ?_, ?_, ?_, ?_, ?_, ?_, ?_, ?_⟩ <;> intro hx <;>
      first
        | decide
        | exact absurd hx (by decide)
        | exact absurd hx.1 (by decide)
        | exact absurd hx.2 (by decide)
        | simp_all
  case _ =>
    refine ⟨?_, ?_, ?_, ?_, ?_, ?_, ?_, ?_, ?_, ?_, ?_⟩ <;> intro hx <;>
      first
        | decide
        | exact absurd hx (by decide)
        | exact absurd hx.1 (by decide)
        | exact absurd hx.2 (by decide)
        | simp_all
  case _ =>
    refine ⟨?_, ?_, ?_, ?_, ?_, ?_, ?_, ?_, ?_, ?_, ?_⟩ <;> intro hx <;>
      first
        | decide
        | exact absurd hx (by decide)
        | exact absurd hx.1 (by decide)
        | exact absurd hx.2 (by decide)
        | simp_all
  case _ =>
    refine ⟨?_, ?_, ?_, ?_, ?_, ?_, ?_, ?_, ?_, ?_, ?_⟩ <;> intro hx <;>
      first
        | decide
        | exact absurd hx (by decide)
        | exact absurd hx.1 (by decide)
        | exact absurd hx.2 (by decide)
        | simp_all
  case _ =>
    refine ⟨?_, ?_, ?_, ?_, ?_, ?_, ?_, ?_, ?_, ?_, ?_⟩ <;> intro hx <;>
      first
        | decide
        | exact absurd hx (by decide)
        | exact absurd hx.1 (by decide)
        | exact absurd hx.2 (by decide)
        | simp_all
  case _ =>
    have hnotP : ∀ e : Event, e ∉ exitZeroPrefix → e ∉ pollEvs →
        e ∈ exitZeroSuffix →
        e ∈ exitZeroPrefix ++ pollEvs ++ exitZeroSuffix := by
      intro e _ _ he
      exact List.mem_append_right _ he
    have hprec : ∀ a b : Event, a ∉ exitZeroPrefix → b ∉ exitZeroPrefix →
        a ∉ pollEvs → b ∉ pollEvs → Precedes a b exitZeroSuffix →
        Precedes a b (exitZeroPrefix ++ pollEvs ++ exitZeroSuffix) := by
      intro a b ha1 hb1 ha2 hb2 hp
      rw [List.append_assoc]
      exact precedes_append_both ha1 hb1 (precedes_append_both ha2 hb2 hp)
    have hpoll : ∀ e : Event, e ≠ Event.sleep10 → e ≠ Event.alGetSource →
        e ∉ pollEvs := fun e h1 h2 => not_mem_pollEvents hpl h1 h2
    refine ⟨?_, ?_, ?_, ?_, ?_, ?_, ?_, ?_, ?_, ?_, ?_⟩
    · exact fun _ => hnotP _ (by decide) (hpoll _ (by decide) (by decide))
        (by decide)
    · exact fun _ => hnotP _ (by decide) (hpoll _ (by decide) (by decide))
        (by decide)
    · exact fun _ => hnotP _ (by decide) (hpoll _ (by decide) (by decide))
        (by decide)
    · exact fun _ => hnotP _ (by decide) (hpoll _ (by decide) (by decide))
        (by decide)
    · exact fun _ => hnotP _ (by decide) (hpoll _ (by decide) (by decide))
        (by decide)
    · exact fun _ => hprec _ _ (by decide) (by decide)
        (hpoll _ (by decide) (by decide)) (hpoll _ (by decide) (by decide))
        (by decide)
    · exact fun _ => hprec _ _ (by decide) (by decide)
        (hpoll _ (by decide) (by decide)) (hpoll _ (by decide) (by decide))
        (by decide)
    · exact fun _ => hprec _ _ (by decide) (by decide)
        (hpoll _ (by decide) (by decide)) (hpoll _ (by decide) (by decide))
        (by decide)
    · exact fun _ => hprec _ _ (by decide) (by decide)
        (hpoll _ (by decide) (by decide)) (hpoll _ (by decide) (by decide))
        (by decide)
    · exact fun _ => hprec _ _ (by decide) (by decide)
        (hpoll _ (by decide) (by decide)) (hpoll _ (by decide) (by decide))
        (by decide)
    · intro hx
      rw [hx] at hctx
      exact absurd hctx (by decide)

/-- Witness for C3 (amended) on the all-success run. -/
theorem teardown_release_discipline_witness :
    (Event.sdlOpenAudio ∈ traceAllOk ∧ envAllOk.sdlOpenOk = true →
      Event.sdlCloseAudio ∈ traceAllOk) ∧
    (Event.alcOpenDevice ∈ traceAllOk ∧ envAllOk.device.isSome = true →
      Event.alcCloseDevice ∈ traceAllOk) ∧
    (Event.alcCreateContext ∈ traceAllOk ∧ envAllOk.context.isSome = true →
      Event.alcDestroyContext ∈ traceAllOk) ∧
    (Event.alGenSources ∈ traceAllOk → Event.alDeleteSources ∈ traceAllOk) ∧
    ((createSineWave envAllOk.sine).1 ≠ 0 ∧ Event.alGenBuffers ∈ traceAllOk →
      Event.alDeleteBuffers ∈ traceAllOk) ∧
    (Event.alDeleteSources ∈ traceAllOk →
      Precedes Event.alDeleteSources Event.alDeleteBuffers traceAllOk) ∧
    (Event.alDeleteBuffers ∈ traceAllOk →
      Precedes Event.alDeleteBuffers Event.alcDestroyContext traceAllOk) ∧
    (Event.alcDestroyContext ∈ traceAllOk →
      Precedes Event.alcDestroyContext Event.alcCloseDevice traceAllOk) ∧
    (Event.alcDestroyContext ∈ traceAllOk →
      Precedes Event.sdlCloseAudio Event.alcDestroyContext traceAllOk) ∧
    (Event.sdlCloseAudio ∈ traceAllOk →
      Precedes Event.sdlCloseAudio Event.sdlQuit traceAllOk) ∧
    (envAllOk.context = none → Event.alcDestroyContext ∉ traceAllOk) :=
  teardown_release_discipline envAllOk 0 traceAllOk (by rfl)

/-- C3 counterexample: on the successful run the releases are not in
strict reverse-acquisition order.  The SDL audio stream is acquired
(`SDL_OpenAudio`) before the loopback device is opened, so strict
reverse order would close it after the device; instead the program
closes the audio stream before destroying the context and before
closing the device. -/
theorem teardown_not_reverse_order_counterexample :
    mainRun envAllOk = Outcome.exit 0 traceAllOk ∧
    Precedes Event.sdlOpenAudio Event.alcOpenDevice traceAllOk ∧
    Precedes Event.sdlCloseAudio Event.alcDestroyContext traceAllOk ∧
    Precedes Event.sdlCloseAudio Event.alcCloseDevice traceAllOk :=
  ⟨rfl, by decide, by decide, by decide⟩

/-- C9: on the path where playback completed (exit code 0), the source
is deleted before the buffer it references: the deletion order is
source first, then buffer. -/
theorem delete_source_before_buffer (env : Env) (tr : List Event)
    (h : mainRun env = Outcome.exit 0 tr) :
    Precedes Event.alDeleteSources Event.alDeleteBuffers tr := by
  rcases mainRun_exit_characterization env 0 tr h with
    ⟨h1, _⟩ | ⟨h1, _⟩ | ⟨h1, _, _⟩ | ⟨h1, _⟩ | ⟨h1, _, _⟩ | ⟨h1, _⟩ |
    ⟨h1, _, _⟩ | ⟨h1, _, _⟩ | ⟨h1, _, _, _⟩ |
    ⟨_, _, _, _, _, _, _, _, _, _, pollEvs, hpl, rfl⟩
  case _ => exact absurd h1 (by norm_num)
  case _ => exact absurd h1 (by norm_num)
  case _ => exact absurd h1 (by norm_num)
  case _ => exact absurd h1 (by norm_num)
  case _ => exact absurd h1 (by norm_num)
  case _ => exact absurd h1 (by norm_num)
  case _ => exact absurd h1 (by norm_num)
  case _ => exact absurd h1 (by norm_num)
  case _ => exact absurd h1 (by norm_num)
  case _ =>
    rw [List.append_assoc]
    exact precedes_append_both (by decide) (by decide)
      (precedes_append_both (not_mem_pollEvents hpl (by decide) (by decide))
        (not_mem_pollEvents hpl (by decide) (by decide)) (by decide))

/-- Witness for C9 on the all-success run. -/
theorem delete_source_before_buffer_witness :
    Precedes Event.alDeleteSources Event.alDeleteBuffers traceAllOk :=
  delete_source_before_buffer envAllOk traceAllOk (by rfl)

end Alloopback
